import Mathlib

set_option maxRecDepth 8000

/-!
Verification development for `watermark_cli.py`, a batch photo-watermarking
tool.  Python strings are embedded as `List Char`, Python integers as `Int`
(`Nat` where the source can only produce non-negative values), fallible
library calls as `Except`/`Option`, and the imperative Pillow image API as
explicit state passing over a heap of image objects.  Every definition is
translated from the source file; definitions that state a claim's own wording
(for comparison against the code) are named `claim...` and documented as such.
-/

namespace WatermarkCli

/-- Python strings modelled as lists of characters. -/
abbrev PyStr := List Char

/-- Build a `PyStr` from a Lean string literal. -/
def pystr (s : String) : PyStr := s.data

/-- Python error values (`Exception` payloads) are modelled as strings. -/
abbrev PyErr := String

/-- The ASCII whitespace characters recognised by Python's `str.strip()` /
`int()` (space, tab, newline, carriage return, vertical tab, form feed). -/
def isPySpace (c : Char) : Bool :=
  c.toNat == 32 || c.toNat == 9 || c.toNat == 10 || c.toNat == 13 ||
  c.toNat == 11 || c.toNat == 12

/-- Python `str.strip()`: drop leading and trailing whitespace. -/
def pyStripWs (s : PyStr) : PyStr :=
  ((s.dropWhile isPySpace).reverse.dropWhile isPySpace).reverse

/-- The value of one digit character in the given base, as accepted by
Python's `int(x, base)` (decimal digits, then lowercase and uppercase
letters), or `none` when the character is not a digit of that base. -/
def digitVal? (base : Nat) (c : Char) : Option Nat :=
  let n := c.toNat
  let v? : Option Nat :=
    if 48 ≤ n ∧ n ≤ 57 then some (n - 48)
    else if 97 ≤ n ∧ n ≤ 122 then some (n - 87)
    else if 65 ≤ n ∧ n ≤ 90 then some (n - 55)
    else none
  match v? with
  | some v => if v < base then some v else none
  | none => none

/-- Digit-run parser for Python `int`: a non-empty digit sequence in which a
single underscore may stand between two digits.  The boolean argument records
whether the previous character was a digit (so an underscore is allowed). -/
def digitsLoop (base : Nat) : List Char → Nat → Bool → Option Nat
  | [], acc, prevDigit => if prevDigit then some acc else none
  | c :: cs, acc, prevDigit =>
    if c.toNat = 95 then
      if prevDigit then digitsLoop base cs acc false else none
    else
      match digitVal? base c with
      | some v => digitsLoop base cs (acc * base + v) true
      | none => none

/-- Parse a non-empty digit sequence (with Python's underscore rule). -/
def digitsVal? (base : Nat) (s : PyStr) : Option Nat :=
  digitsLoop base s 0 false

/-- Python `int(s, base)` on a string: strip whitespace, allow one leading
sign, then a digit run; `none` models the `ValueError` raise. -/
def pyIntOpt (base : Nat) (s : PyStr) : Option Int :=
  match pyStripWs s with
  | [] => none
  | c :: rest =>
    if c.toNat = 43 then (digitsVal? base rest).map (fun n => (n : Int))
    else if c.toNat = 45 then (digitsVal? base rest).map (fun n => -(n : Int))
    else (digitsVal? base (c :: rest)).map (fun n => (n : Int))

/-- Python `str.split(sep)` with an explicit one-character separator: always
returns a non-empty list; adjacent separators yield empty fields. -/
def pySplit (sep : Char) : PyStr → List PyStr
  | [] => [[]]
  | c :: rest =>
    let r := pySplit sep rest
    if c = sep then [] :: r
    else
      match r with
      | h :: t => (c :: h) :: t
      | [] => [[c]]

/-- Decimal rendering of a natural number, left-padded with zeros to the
given width (Python `f"{n:0wd}"` for non-negative `n`). -/
def padNat (w : Nat) (n : Nat) : PyStr :=
  let ds := Nat.toDigits 10 n
  List.replicate (w - ds.length) '0' ++ ds

/-- Python `f"{n:0wd}"`: the sign counts toward the width. -/
def padInt (w : Nat) (n : Int) : PyStr :=
  if n < 0 then '-' :: padNat (w - 1) n.natAbs else padNat w n.toNat

/-! ## EXIF date extraction (`exif_date_text`, source lines 69-86) -/

/-- EXIF tag id of DateTimeOriginal (source line 9). -/
def EXIF_TAG_DATETIME_ORIGINAL : Nat := 36867

/-- EXIF tag id of DateTime (source line 10). -/
def EXIF_TAG_DATETIME : Nat := 306

/-- The decoded EXIF mapping: tag ids to string values.  `img.getexif()` may
raise, which the caller models with `Except`. -/
abbrev ExifMap := List (Nat × PyStr)

/-- Python `dict.get`: the value of the first matching key, if any. -/
def exifGet (m : ExifMap) (k : Nat) : Option PyStr :=
  (m.find? (fun p => p.1 == k)).map (fun p => p.2)

/-- Python `a or b` on optional strings: `a` when it is truthy (present and
non-empty), otherwise `b`. -/
def pyOr (a b : Option PyStr) : Option PyStr :=
  match a with
  | some s => if s.isEmpty then b else some s
  | none => b

/-- Source lines 80-86: take the segment before the first space, split it on
`:`, keep the first three fields, parse each as an integer and re-render as
`YYYY-MM-DD` with 4/2/2 zero padding; any failure (fewer than three fields,
unparsable component) is caught and yields `none`. -/
def formatDate (s : PyStr) : Option PyStr :=
  let date_part := (pySplit ' ' s).headD []
  match (pySplit ':' date_part).take 3 with
  | [y, m, d] =>
    match pyIntOpt 10 y, pyIntOpt 10 m, pyIntOpt 10 d with
    | some yi, some mi, some di =>
      some (padInt 4 yi ++ '-' :: (padInt 2 mi ++ '-' :: padInt 2 di))
    | _, _, _ => none
  | _ => none

/-- `exif_date_text` (source lines 69-86): a failing `getexif` or an empty
mapping yields `none`; otherwise prefer the DateTimeOriginal value, falling
back to DateTime when the former is absent or empty, and normalise the raw
value with `formatDate`. -/
def exif_date_text (exifRes : Except PyErr ExifMap) : Option PyStr :=
  match exifRes with
  | .error _ => none
  | .ok m =>
    if m.isEmpty then none
    else
      match pyOr (exifGet m EXIF_TAG_DATETIME_ORIGINAL) (exifGet m EXIF_TAG_DATETIME) with
      | none => none
      | some raw => if raw.isEmpty then none else formatDate raw

/-- The date normalisation as the amended claim C1 words it: the segment
before the first space must split on `:` into at least three fields whose
first three parse as integers; extra fields are ignored; otherwise no date. -/
def claimDateOfRaw (s : PyStr) : Option PyStr :=
  let fields := pySplit ':' ((pySplit ' ' s).headD [])
  if 3 ≤ fields.length then
    match pyIntOpt 10 (fields.getD 0 []), pyIntOpt 10 (fields.getD 1 []),
          pyIntOpt 10 (fields.getD 2 []) with
    | some y, some m, some d =>
      some (padInt 4 y ++ '-' :: (padInt 2 m ++ '-' :: padInt 2 d))
    | _, _, _ => none
  else none

/-! ## Color parsing (`parse_color`, source lines 105-136) -/

/-- RGBA channel tuples as produced by `parse_color`.  Channels are Python
integers (`int(x, 16)` can in principle produce negative values). -/
abbrev Rgba := Int × Int × Int × Int

/-- Result of `parse_color`: the channel tuple plus whether the final
opaque-white fallback warning was printed. -/
structure ParseColorResult where
  rgba : Rgba
  warned : Bool
deriving DecidableEq, Repr

/-- The `#`-hex branch of `parse_color` (source lines 108-126): on `#` plus 8
characters, parse four byte pairs with alpha first (AARRGGBB) and return
`(r, g, b, a)`; on `#` plus 6 characters, parse three pairs with alpha 255;
any other shape or a failing `int(_, 16)` falls through (`none`). -/
def hashHex? (c : PyStr) : Option Rgba :=
  match c with
  | c0 :: [h1, h2, h3, h4, h5, h6, h7, h8] =>
    if c0 = '#' then
      match pyIntOpt 16 [h1, h2], pyIntOpt 16 [h3, h4],
            pyIntOpt 16 [h5, h6], pyIntOpt 16 [h7, h8] with
      | some a, some r, some g, some b => some (r, g, b, a)
      | _, _, _, _ => none
    else none
  | c0 :: [h1, h2, h3, h4, h5, h6] =>
    if c0 = '#' then
      match pyIntOpt 16 [h1, h2], pyIntOpt 16 [h3, h4], pyIntOpt 16 [h5, h6] with
      | some r, some g, some b => some (r, g, b, 255)
      | _, _, _ => none
    else none
  | _ => none

/-- `parse_color` (source lines 105-136).  The symbolic resolver stands for
`ImageColor.getcolor(c, "RGBA")`: `none` models a raise, and a present result
carries an optional alpha (a 3-tuple result gets alpha 255).  When both the
hex branch and the resolver fail, fall back to opaque white with a warning. -/
def parse_color (resolver : PyStr → Option (Int × Int × Int × Option Int))
    (color : PyStr) : ParseColorResult :=
  let c := pyStripWs color
  match hashHex? c with
  | some rgba => ⟨rgba, false⟩
  | none =>
    match resolver c with
    | some (r, g, b, a?) => ⟨(r, g, b, a?.getD 255), false⟩
    | none => ⟨(255, 255, 255, 255), true⟩

/-- Packed value of a two-hex-digit byte, for stating the AARRGGBB layout. -/
def hexByteVal (a b : Char) : Nat :=
  (digitVal? 16 a).getD 0 * 16 + (digitVal? 16 b).getD 0

/-! ## Anchor computation (`calc_position`, source lines 139-149) -/

/-- Default `margin` argument of `calc_position` (source line 139). -/
def defaultMargin : Int := 10

/-- `calc_position` (source lines 139-149).  Python `//` is floor division,
embedded as `Int.fdiv`; every string other than the four tested ones falls
through to the bottom-right anchor. -/
def calc_position (img_w img_h text_w text_h : Int) (pos : String)
    (margin : Int) : Int × Int :=
  if pos = "top-left" then (margin, margin)
  else if pos = "top-right" then (max (img_w - text_w - margin) margin, margin)
  else if pos = "center" then
    (Int.fdiv (img_w - text_w) 2, Int.fdiv (img_h - text_h) 2)
  else if pos = "bottom-left" then (margin, max (img_h - text_h - margin) margin)
  else (max (img_w - text_w - margin) margin, max (img_h - text_h - margin) margin)

/-! ## Paths (`ensure_output_root`, source lines 59-66) -/

/-- Filesystem paths as component lists (`pathlib.Path`). -/
abbrev PyPath := List String

/-- `Path.name`: the final component (empty for the empty path). -/
def pathName (p : PyPath) : String := (p.getLast?).getD ""

/-- `Path.parent`: drop the final component. -/
def pathParent (p : PyPath) : PyPath := p.dropLast

/-- `ensure_output_root` (source lines 59-66): choose the input's parent when
the input is a file, otherwise the input directory itself, and place a
directory named `<baseDirName>_watermark` inside it.  The `mkdir` side effect
is abstracted away; the function returns the created path.  `isFile` models
the `input_path.is_file()` filesystem test. -/
def ensure_output_root (input_path : PyPath) (isFile : Bool) : PyPath :=
  let base_dir := if isFile then pathParent input_path else input_path
  base_dir ++ [pathName base_dir ++ "_watermark"]

/-! ## The Pillow image heap

`draw_watermark` (source lines 152-184) manipulates Pillow image objects
imperatively.  The embedding passes an explicit heap of image objects; every
Pillow call that allocates appends a fresh object, and `ImageDraw.text`, the
only mutating call in the function, overwrites its target in place.  Pixel
contents are tracked symbolically so that a statement can tell apart raw,
orientation-normalised, converted, text-carrying and composited pixels. -/

/-- Symbolic pixel contents of an image object. -/
inductive PixelData where
  | source (raw : Nat)
  | transposed (p : PixelData)
  | converted (p : PixelData) (mode : String)
  | blank (w h : Nat)
  | textOn (p : PixelData) (text : String) (x y : Int) (fill : Rgba)
  | composited (base overlay : PixelData)
deriving DecidableEq, Repr

/-- One Pillow image object: color mode, size, whether an EXIF orientation
tag is attached, and the symbolic pixels. -/
structure ImageObj where
  mode : String
  width : Nat
  height : Nat
  hasOrientation : Bool
  pixels : PixelData
deriving DecidableEq, Repr

instance : Inhabited ImageObj := ⟨⟨"", 0, 0, false, .blank 0 0⟩⟩

/-- The object heap; an image reference is an index into it. -/
abbrev Heap := List ImageObj

/-- Dereference an image (out-of-range reads return the junk default,
which never occurs on the source's paths). -/
def getObj : Heap → Nat → ImageObj
  | [], _ => default
  | o :: _, 0 => o
  | _ :: t, n + 1 => getObj t n

/-- In-place update of one image object. -/
def setObj : Heap → Nat → ImageObj → Heap
  | [], _, _ => []
  | _ :: t, 0, o => o :: t
  | a :: t, n + 1, o => a :: setObj t n o

/-- Allocate a fresh image object, returning the new heap and its index. -/
def alloc (h : Heap) (o : ImageObj) : Heap × Nat := (h ++ [o], h.length)

/-- `ImageOps.exif_transpose`: a fresh copy whose pixels are rotated upright
when an orientation tag is present; the copy carries no orientation tag. -/
def exif_transpose (h : Heap) (i : Nat) : Heap × Nat :=
  let o := getObj h i
  alloc h ⟨o.mode, o.width, o.height, false,
           if o.hasOrientation then .transposed o.pixels else o.pixels⟩

/-- `Image.convert(mode)`: a fresh object in the requested mode. -/
def convertImg (h : Heap) (i : Nat) (m : String) : Heap × Nat :=
  let o := getObj h i
  alloc h ⟨m, o.width, o.height, o.hasOrientation, .converted o.pixels m⟩

/-- `Image.copy()`: a fresh identical object. -/
def copyImg (h : Heap) (i : Nat) : Heap × Nat :=
  alloc h (getObj h i)

/-- `Image.new(mode, size, fill)`: a fresh blank object. -/
def imageNew (h : Heap) (m : String) (w hh : Nat) : Heap × Nat :=
  alloc h ⟨m, w, hh, false, .blank w hh⟩

/-- `ImageDraw.Draw(layer).text(xy, text, fill)`: mutates the layer. -/
def drawText (h : Heap) (i : Nat) (x y : Int) (text : String) (fill : Rgba) : Heap :=
  let o := getObj h i
  setObj h i ⟨o.mode, o.width, o.height, o.hasOrientation,
              .textOn o.pixels text x y fill⟩

/-- `Image.alpha_composite(a, b)`: fresh RGBA result of compositing. -/
def alpha_composite (h : Heap) (a b : Nat) : Heap × Nat :=
  let oa := getObj h a
  let ob := getObj h b
  alloc h ⟨"RGBA", oa.width, oa.height, oa.hasOrientation,
           .composited oa.pixels ob.pixels⟩

/-- `draw_watermark` (source lines 152-184).  Text measurement
(`draw.textbbox`) is the spec's opaque capability; the measured text width
and height enter as the `text_w`/`text_h` parameters.  Returns the final
heap and the index of the returned image. -/
def draw_watermark (h0 : Heap) (imgId : Nat) (text : String)
    (text_w text_h : Int) (color_rgba : Rgba) (position : String) : Heap × Nat :=
  let r1 := exif_transpose h0 imgId
  let h1 := r1.1
  let img := r1.2
  let orig_mode := (getObj h1 img).mode
  let r2 := if orig_mode ≠ "RGBA" then convertImg h1 img "RGBA" else copyImg h1 img
  let h2 := r2.1
  let base := r2.2
  let baseObj := getObj h2 base
  let r3 := imageNew h2 "RGBA" baseObj.width baseObj.height
  let h3 := r3.1
  let txt_layer := r3.2
  let xy := calc_position (baseObj.width : Int) (baseObj.height : Int)
              text_w text_h position defaultMargin
  let shadow : Rgba := (0, 0, 0, min 120 color_rgba.2.2.2)
  let h4 := drawText h3 txt_layer (xy.1 + 1) (xy.2 + 1) text shadow
  let h5 := drawText h4 txt_layer (xy.1 + 2) (xy.2 + 2) text shadow
  let h6 := drawText h5 txt_layer xy.1 xy.2 text color_rgba
  let r7 := alpha_composite h6 base txt_layer
  let h7 := r7.1
  let out := r7.2
  if orig_mode ≠ "RGBA" then convertImg h7 out orig_mode else (h7, out)

/-- Pixels whose construction trace passes through an orientation
normalisation (`exif_transpose`) on the base image. -/
def isNormalizedTrace : PixelData → Bool
  | .transposed _ => true
  | .converted p _ => isNormalizedTrace p
  | .textOn p _ _ _ _ => isNormalizedTrace p
  | .composited b _ => isNormalizedTrace b
  | .source _ => false
  | .blank _ _ => false

/-! ## File transaction (`process_file`, source lines 187-222) -/

/-- A raw EXIF blob (`im.info.get("exif")`), as a byte list. -/
abbrev ByteBlob := List Nat

/-- ASCII uppercasing, for `im.format.upper()` (format names are ASCII). -/
def toUpperChar (c : Char) : Char :=
  if 97 ≤ c.toNat ∧ c.toNat ≤ 122 then Char.ofNat (c.toNat - 32) else c

/-- Python `str.upper()` on a format name. -/
def asciiUpper (s : String) : String := String.mk (s.data.map toUpperChar)

/-- `Path.suffix`: the final extension of the last component, empty when the
only dot is leading or trailing (CPython's `0 < i < len(name) - 1` rule). -/
def pathSuffix (name : String) : String :=
  let l := name.data
  match l.reverse.findIdx? (fun c => c == '.') with
  | some ri =>
    let i := l.length - 1 - ri
    if 0 < i ∧ i + 1 < l.length then String.mk (l.drop i) else ""
  | none => ""

/-- The last component without its `pathSuffix`. -/
def pathStem (name : String) : String :=
  let l := name.data
  match l.reverse.findIdx? (fun c => c == '.') with
  | some ri =>
    let i := l.length - 1 - ri
    if 0 < i ∧ i + 1 < l.length then String.mk (l.take i) else name
  | none => name

/-- `Path.with_suffix`: replace the extension of the final component. -/
def withSuffix (p : PyPath) (suf : String) : PyPath :=
  match p with
  | [] => []
  | _ => pathParent p ++ [pathStem (pathName p) ++ suf]

/-- `Path.relative_to`: the remainder when `root` is a component-wise
leading part of `p`; `none` models the `ValueError` raise. -/
def relTo? (p root : PyPath) : Option PyPath :=
  if root.isPrefixOf p then some (p.drop root.length) else none

/-- The decoded image as seen by `process_file`: the (fallible) EXIF mapping
read by `getexif`, the raw EXIF blob in `im.info`, and `im.format`. -/
structure DecodedImage where
  exifRes : Except PyErr ExifMap
  infoExif : Option ByteBlob
  format : Option String
deriving Repr

/-- The injected per-file behaviour of the external collaborators: decoding
may fail, and rendering, `mkdir` and `save` may each raise. -/
structure FileOps where
  decode : Except PyErr DecodedImage
  renderErr : Option PyErr
  mkdirErr : Option PyErr
  saveErr : Option PyErr
deriving Repr

/-- Keyword arguments handed to `Image.save`. -/
structure SaveKwargs where
  quality : Option Nat
  subsampling : Option Nat
  exif : Option ByteBlob
deriving DecidableEq, Repr

/-- Per-file outcome: skipped (no EXIF date), saved (with the output path,
format and save kwargs), or failed (caught error, logged with the path). -/
inductive FileResult where
  | skipped
  | saved (outPath : PyPath) (fmt : String) (kwargs : SaveKwargs)
  | failed (file : PyPath) (e : PyErr)
deriving DecidableEq, Repr

instance : Inhabited FileResult := ⟨.skipped⟩

/-- The body of the `try` block of `process_file` (source lines 188-220):
any `.error` models an exception escaping the body. -/
def processFileBody (in_file out_root source_root : PyPath) (ops : FileOps) :
    Except PyErr FileResult :=
  match ops.decode with
  | .error e => .error e
  | .ok im =>
    match exif_date_text im.exifRes with
    | none => .ok .skipped
    | some t =>
      if t.isEmpty then .ok .skipped
      else
        match ops.renderErr with
        | some e => .error e
        | none =>
          let rel_path :=
            match relTo? in_file source_root with
            | some r => r
            | none => [pathName in_file]
          let out_path := out_root ++ rel_path
          match ops.mkdirErr with
          | some e => .error e
          | none =>
            let fmt := asciiUpper ((im.format).getD "PNG")
            let kwargs : SaveKwargs :=
              ⟨if fmt = "JPEG" then some 95 else none,
               if fmt = "JPEG" then some 2 else none,
               match im.infoExif with
               | some bs =>
                 if ¬ bs.isEmpty ∧ (fmt = "JPEG" ∨ fmt = "TIFF") then some bs
                 else none
               | none => none⟩
            let out_path2 := withSuffix out_path (pathSuffix (pathName in_file))
            match ops.saveErr with
            | some e => .error e
            | none => .ok (.saved out_path2 fmt kwargs)

/-- `process_file` (source lines 187-222): the catch-all `except` turns any
exception from the body into a logged, normally-returned failure record. -/
def process_file (in_file out_root source_root : PyPath) (ops : FileOps) :
    FileResult :=
  match processFileBody in_file out_root source_root ops with
  | .ok r => r
  | .error e => .failed in_file e

/-- The driver loop of `main` (source lines 243-246): each input path is
handed to `process_file` in order. -/
def processBatch (out_root source_root : PyPath)
    (files : List (PyPath × FileOps)) : List FileResult :=
  files.map (fun pf => process_file pf.1 out_root source_root pf.2)

/-! ## Heap lemmas and a normal form for `draw_watermark` -/

theorem getObj_append_lt : ∀ (h h' : Heap) (j : Nat), j < h.length →
    getObj (h ++ h') j = getObj h j := by
  intro h
  induction h with
  | nil => intro h' j hj; simp at hj
  | cons a t ih =>
    intro h' j hj
    cases j with
    | zero => rfl
    | succ n => exact ih h' n (by simpa using hj)

theorem getObj_append_self : ∀ (h : Heap) (o : ImageObj),
    getObj (h ++ [o]) h.length = o := by
  intro h o
  induction h with
  | nil => rfl
  | cons a t ih => exact ih

theorem getObj_append_pre_self : ∀ (h : Heap) (o : ImageObj) (h' : Heap),
    getObj (h ++ [o] ++ h') h.length = o := by
  intro h o h'
  induction h with
  | nil => rfl
  | cons a t ih => exact ih

theorem getObj_append_right : ∀ (h h' : Heap) (k : Nat),
    getObj (h ++ h') (h.length + k) = getObj h' k := by
  intro h
  induction h with
  | nil => intro h' k; rw [List.nil_append, List.length_nil, Nat.zero_add]
  | cons a t ih =>
    intro h' k
    rw [List.cons_append, List.length_cons, Nat.succ_add]
    exact ih h' k

theorem setObj_append_self : ∀ (h : Heap) (o o' : ImageObj),
    setObj (h ++ [o]) h.length o' = h ++ [o'] := by
  intro h o o'
  induction h with
  | nil => rfl
  | cons a t ih => exact congrArg (a :: ·) ih

/-- The working copy produced by `ImageOps.exif_transpose`. -/
def transposedObj (O : ImageObj) : ImageObj :=
  ⟨O.mode, O.width, O.height, false,
   if O.hasOrientation then .transposed O.pixels else O.pixels⟩

/-- The overlay layer after the two shadow passes and the main text pass. -/
def layerObj (B : ImageObj) (text : String) (xy : Int × Int) (sh c : Rgba) :
    ImageObj :=
  ⟨"RGBA", B.width, B.height, false,
   .textOn (.textOn (.textOn (.blank B.width B.height)
     text (xy.1 + 1) (xy.2 + 1) sh) text (xy.1 + 2) (xy.2 + 2) sh)
     text xy.1 xy.2 c⟩

/-- Closed form of the heap produced by `draw_watermark`: the input heap is
extended with the transposed copy, the RGBA working copy, the text layer, the
composite, and (for non-RGBA inputs) the converted-back result. -/
def drawResult (h0 : Heap) (imgId : Nat) (text : String) (tw th : Int)
    (c : Rgba) (pos : String) : Heap × Nat :=
  let O := getObj h0 imgId
  let T := transposedObj O
  let B : ImageObj :=
    if O.mode ≠ "RGBA" then ⟨"RGBA", T.width, T.height, T.hasOrientation,
      .converted T.pixels "RGBA"⟩ else T
  let xy := calc_position (B.width : Int) (B.height : Int) tw th pos defaultMargin
  let sh : Rgba := (0, 0, 0, min 120 c.2.2.2)
  let L := layerObj B text xy sh c
  let Cc : ImageObj := ⟨"RGBA", B.width, B.height, B.hasOrientation,
    .composited B.pixels L.pixels⟩
  if O.mode ≠ "RGBA" then
    (h0 ++ [T] ++ [B] ++ [L] ++ [Cc] ++
       [⟨O.mode, Cc.width, Cc.height, Cc.hasOrientation,
         .converted Cc.pixels O.mode⟩], h0.length + 4)
  else
    (h0 ++ [T] ++ [B] ++ [L] ++ [Cc], h0.length + 3)

theorem draw_watermark_eq (h0 : Heap) (imgId : Nat) (text : String)
    (tw th : Int) (c : Rgba) (pos : String) :
    draw_watermark h0 imgId text tw th c pos =
      drawResult h0 imgId text tw th c pos := by
  unfold draw_watermark drawResult transposedObj layerObj
  simp only [exif_transpose, alloc, getObj_append_self]
  by_cases hm : (getObj h0 imgId).mode = "RGBA"
  · simp only [hm, ne_eq, not_true_eq_false, if_false, ite_false, copyImg, alloc,
      getObj_append_self, imageNew, drawText, setObj_append_self,
      alpha_composite, getObj_append_pre_self]
    refine Prod.ext rfl ?_
    simp [List.length_append]
  · simp only [ne_eq, hm, not_false_eq_true, if_true, ite_true, convertImg, alloc,
      getObj_append_self, imageNew, drawText, setObj_append_self,
      alpha_composite, getObj_append_pre_self]
    refine Prod.ext rfl ?_
    simp [List.length_append]

/-- Combined behaviour of `draw_watermark`: every pre-existing heap object is
untouched, the returned image is a fresh object, its color mode is the input
image's mode, and when the input carried an orientation tag the returned
pixels derive from the orientation-normalised copy. -/
theorem draw_watermark_behavior (h0 : Heap) (imgId : Nat) (text : String)
    (tw th : Int) (c : Rgba) (pos : String) (hlt : imgId < h0.length) :
    (∀ j, j < h0.length →
      getObj (draw_watermark h0 imgId text tw th c pos).1 j = getObj h0 j) ∧
    (draw_watermark h0 imgId text tw th c pos).2 ≠ imgId ∧
    (getObj (draw_watermark h0 imgId text tw th c pos).1
      (draw_watermark h0 imgId text tw th c pos).2).mode =
      (getObj h0 imgId).mode ∧
    ((getObj h0 imgId).hasOrientation = true →
      isNormalizedTrace (getObj (draw_watermark h0 imgId text tw th c pos).1
        (draw_watermark h0 imgId text tw th c pos).2).pixels = true) := by
  rw [draw_watermark_eq]
  unfold drawResult transposedObj layerObj
  by_cases hm : (getObj h0 imgId).mode = "RGBA"
  · simp only [hm, ne_eq, not_true_eq_false, if_false, ite_false]
    refine ⟨?_, ?_, ?_, ?_⟩
    · intro j hj
      simp only [List.append_assoc]
      exact getObj_append_lt _ _ _ hj
    · omega
    · simp only [List.append_assoc]
      rw [getObj_append_right]
      rfl
    · intro hOrient
      simp only [List.append_assoc]
      rw [getObj_append_right]
      simp [isNormalizedTrace, hOrient]
  · simp only [ne_eq, hm, not_false_eq_true, if_true, ite_true]
    refine ⟨?_, ?_, ?_, ?_⟩
    · intro j hj
      simp only [List.append_assoc]
      exact getObj_append_lt _ _ _ hj
    · omega
    · simp only [List.append_assoc]
      rw [getObj_append_right]
      rfl
    · intro hOrient
      simp only [List.append_assoc]
      rw [getObj_append_right]
      simp [isNormalizedTrace, hOrient]

/-- Whether a file outcome is a saved output. -/
def FileResult.isSaved : FileResult → Bool
  | .saved _ _ _ => true
  | _ => false

/-- The EXIF blob attached to a saved output, if any. -/
def savedExifOf : FileResult → Option ByteBlob
  | .saved _ _ kw => kw.exif
  | _ => none

instance : Inhabited FileOps := ⟨⟨.error "", none, none, none⟩⟩

/-! ## Helper lemmas -/

theorem digit_char_facts {base : Nat} {c : Char} {v : Nat}
    (h : digitVal? base c = some v) :
    isPySpace c = false ∧ c.toNat ≠ 43 ∧ c.toNat ≠ 45 ∧ c.toNat ≠ 95 := by
  simp only [digitVal?] at h
  have hn : (48 ≤ c.toNat ∧ c.toNat ≤ 57) ∨ (97 ≤ c.toNat ∧ c.toNat ≤ 122) ∨
      (65 ≤ c.toNat ∧ c.toNat ≤ 90) := by
    by_cases h1 : 48 ≤ c.toNat ∧ c.toNat ≤ 57
    · exact Or.inl h1
    · by_cases h2 : 97 ≤ c.toNat ∧ c.toNat ≤ 122
      · exact Or.inr (Or.inl h2)
      · by_cases h3 : 65 ≤ c.toNat ∧ c.toNat ≤ 90
        · exact Or.inr (Or.inr h3)
        · rw [if_neg h1, if_neg h2, if_neg h3] at h
          exact absurd h (by simp)
  refine ⟨?_, by omega, by omega, by omega⟩
  simp only [isPySpace, Bool.or_eq_false_iff, beq_eq_false_iff_ne, ne_eq]
  omega

theorem pyStripWs_eq_self {l : PyStr} (h : ∀ c ∈ l, isPySpace c = false) :
    pyStripWs l = l := by
  have h1 : l.dropWhile isPySpace = l := by
    cases l with
    | nil => rfl
    | cons a t =>
      rw [List.dropWhile_cons, h a (List.mem_cons_self a t)]
      simp
  have h2 : l.reverse.dropWhile isPySpace = l.reverse := by
    cases hr : l.reverse with
    | nil => rfl
    | cons a t =>
      have ha : a ∈ l := List.mem_reverse.mp (by rw [hr]; exact List.mem_cons_self a t)
      rw [List.dropWhile_cons, h a ha]
      simp
  unfold pyStripWs
  rw [h1, h2, List.reverse_reverse]

theorem digitsLoop_cons_digit {base : Nat} {c : Char} {v : Nat}
    (h95 : c.toNat ≠ 95) (hd : digitVal? base c = some v) (cs : List Char)
    (acc : Nat) (prev : Bool) :
    digitsLoop base (c :: cs) acc prev = digitsLoop base cs (acc * base + v) true := by
  conv_lhs => rw [digitsLoop]
  rw [if_neg h95, hd]

theorem pyIntOpt_pair {base : Nat} {a b : Char} {va vb : Nat}
    (ha : digitVal? base a = some va) (hb : digitVal? base b = some vb) :
    pyIntOpt base [a, b] = some ((va * base + vb : Nat) : Int) := by
  obtain ⟨hsa, ha43, ha45, ha95⟩ := digit_char_facts ha
  obtain ⟨hsb, hb43, hb45, hb95⟩ := digit_char_facts hb
  have hmem : ∀ c ∈ [a, b], isPySpace c = false := by
    intro c hc
    rcases List.mem_cons.mp hc with rfl | hc2
    · exact hsa
    · rcases List.mem_cons.mp hc2 with rfl | h3
      · exact hsb
      · simp at h3
  have hval : digitsVal? base [a, b] = some (va * base + vb) := by
    unfold digitsVal?
    rw [digitsLoop_cons_digit ha95 ha, digitsLoop_cons_digit hb95 hb]
    show some ((0 * base + va) * base + vb) = some (va * base + vb)
    simp [Nat.zero_mul, Nat.zero_add]
  unfold pyIntOpt
  rw [pyStripWs_eq_self hmem]
  dsimp only
  rw [if_neg ha43, if_neg ha45, hval]
  rfl

/-! ## Claim theorems -/

/-- Claim C2: for every input consisting of `#` followed by exactly eight hex
digits, `parse_color` reads the first byte as alpha and the next three as
red, green and blue, and returns the tuple `(r, g, b, a)`. -/
theorem parse_color_alpha_first
    (resolver : PyStr → Option (Int × Int × Int × Option Int))
    (c1 c2 c3 c4 c5 c6 c7 c8 : Char) (v1 v2 v3 v4 v5 v6 v7 v8 : Nat)
    (h1 : digitVal? 16 c1 = some v1) (h2 : digitVal? 16 c2 = some v2)
    (h3 : digitVal? 16 c3 = some v3) (h4 : digitVal? 16 c4 = some v4)
    (h5 : digitVal? 16 c5 = some v5) (h6 : digitVal? 16 c6 = some v6)
    (h7 : digitVal? 16 c7 = some v7) (h8 : digitVal? 16 c8 = some v8) :
    (parse_color resolver ('#' :: [c1, c2, c3, c4, c5, c6, c7, c8])).rgba =
      (((v3 * 16 + v4 : Nat) : Int), ((v5 * 16 + v6 : Nat) : Int),
       ((v7 * 16 + v8 : Nat) : Int), ((v1 * 16 + v2 : Nat) : Int)) := by
  have hh : hashHex? ('#' :: [c1, c2, c3, c4, c5, c6, c7, c8]) =
      some (((v3 * 16 + v4 : Nat) : Int), ((v5 * 16 + v6 : Nat) : Int),
            ((v7 * 16 + v8 : Nat) : Int), ((v1 * 16 + v2 : Nat) : Int)) := by
    unfold hashHex?
    dsimp only
    rw [if_pos rfl, pyIntOpt_pair h1 h2, pyIntOpt_pair h3 h4,
        pyIntOpt_pair h5 h6, pyIntOpt_pair h7 h8]
  have hmem : ∀ c ∈ '#' :: [c1, c2, c3, c4, c5, c6, c7, c8], isPySpace c = false := by
    intro c hc
    simp only [List.mem_cons, List.not_mem_nil, or_false] at hc
    rcases hc with rfl | rfl | rfl | rfl | rfl | rfl | rfl | rfl | rfl
    · decide
    · exact (digit_char_facts h1).1
    · exact (digit_char_facts h2).1
    · exact (digit_char_facts h3).1
    · exact (digit_char_facts h4).1
    · exact (digit_char_facts h5).1
    · exact (digit_char_facts h6).1
    · exact (digit_char_facts h7).1
    · exact (digit_char_facts h8).1
  simp only [parse_color]
  rw [pyStripWs_eq_self hmem, hh]

/-- Witness for C2 at the spec's own example: `parseColor("#80FF0000")` is
red 255, green 0, blue 0, alpha 128. -/
theorem parse_color_alpha_first_witness :
    (parse_color (fun _ => none)
      ('#' :: ['8', '0', 'F', 'F', '0', '0', '0', '0'])).rgba = (255, 0, 0, 128) := by
  rw [parse_color_alpha_first (fun _ => none) '8' '0' 'F' 'F' '0' '0' '0' '0'
      8 0 15 15 0 0 0 0 rfl rfl rfl rfl rfl rfl rfl rfl]
  decide

/-- Claim C7: `parse_color` is total (it is a Lean function, so it cannot
raise), and whenever neither the `#`-hex branch nor the symbolic color-name
resolver accepts the (stripped) input, it falls back to opaque white
`(255, 255, 255, 255)` and emits the warning. -/
theorem parse_color_fallback_white
    (resolver : PyStr → Option (Int × Int × Int × Option Int)) (color : PyStr)
    (hhex : hashHex? (pyStripWs color) = none)
    (hres : resolver (pyStripWs color) = none) :
    parse_color resolver color = ⟨(255, 255, 255, 255), true⟩ := by
  simp only [parse_color]
  rw [hhex, hres]

/-- Witness for C7 at the spec's example `parseColor("not-a-color")`. -/
theorem parse_color_fallback_white_witness :
    parse_color (fun _ => none) (pystr "not-a-color") = ⟨(255, 255, 255, 255), true⟩ :=
  parse_color_fallback_white (fun _ => none) (pystr "not-a-color") (by decide) rfl

/-- Claim C3, amended: the output root is a directory named
`<baseDirName>_watermark` created inside the base directory itself — the
input directory for directory input, the file's parent for file input — not
as a sibling of it. -/
theorem ensure_output_root_inside_input (p : PyPath) :
    ensure_output_root p false = p ++ [pathName p ++ "_watermark"] ∧
    ensure_output_root p true =
      pathParent p ++ [pathName (pathParent p) ++ "_watermark"] :=
  ⟨rfl, rfl⟩

/-- Counterexample for C3 as stated: for directory input `pics/vacation` the
claimed sibling location would be `pics/vacation_watermark`, but the code
produces `pics/vacation/vacation_watermark` (a child of the input). -/
theorem ensure_output_root_not_sibling :
    ensure_output_root ["pics", "vacation"] false ≠
      pathParent ["pics", "vacation"] ++
        [pathName ["pics", "vacation"] ++ "_watermark"] := by
  decide

/-- Claim C4, amended: the `center` anchor is
`((imgW − textW) // 2, (imgH − textH) // 2)` with Python's floor division
(rounding toward negative infinity, not truncation), unclamped — so possibly
negative — and off-center by at most one pixel for odd differences. -/
theorem center_anchor_floor_division (w h tw th m : Int) :
    calc_position w h tw th "center" m =
      (Int.fdiv (w - tw) 2, Int.fdiv (h - th) 2) ∧
    2 * Int.fdiv (w - tw) 2 ≤ w - tw ∧ w - tw ≤ 2 * Int.fdiv (w - tw) 2 + 1 ∧
    2 * Int.fdiv (h - th) 2 ≤ h - th ∧ h - th ≤ 2 * Int.fdiv (h - th) 2 + 1 := by
  refine ⟨rfl, ?_, ?_, ?_, ?_⟩ <;>
    rw [Int.fdiv_eq_ediv _ (by decide)] <;> omega

/-- Counterexample for C4 as stated: at a 10×10 image with 13×13 text the
code computes `(-3) // 2 = -2` (floor), while the claimed truncating
division would give `-1`. -/
theorem center_anchor_not_truncating :
    calc_position 10 10 13 13 "center" defaultMargin ≠
      (Int.tdiv (10 - 13) 2, Int.tdiv (10 - 13) 2) := by
  decide

/-- Claim C5: with the default margin, each of the four corner positions
yields an anchor with `x ≥ margin` and `y ≥ margin`, for all non-negative
image and text dimensions (even when the text overflows the image). -/
theorem corner_anchor_min_margin (w h tw th : Int) (pos : String)
    (_hw : 0 ≤ w) (_hh : 0 ≤ h) (_htw : 0 ≤ tw) (_hth : 0 ≤ th)
    (hpos : pos = "top-left" ∨ pos = "top-right" ∨ pos = "bottom-left" ∨
      pos = "bottom-right") :
    defaultMargin ≤ (calc_position w h tw th pos defaultMargin).1 ∧
    defaultMargin ≤ (calc_position w h tw th pos defaultMargin).2 := by
  rcases hpos with rfl | rfl | rfl | rfl
  · exact ⟨le_refl _, le_refl _⟩
  · exact ⟨le_max_right _ _, le_refl _⟩
  · exact ⟨le_refl _, le_max_right _ _⟩
  · exact ⟨le_max_right _ _, le_max_right _ _⟩

/-- Witness for C5: a 100×80 image with 300×50 text at `top-right` still
anchors at least 10 pixels from each edge. -/
theorem corner_anchor_min_margin_witness :
    defaultMargin ≤ (calc_position 100 80 300 50 "top-right" defaultMargin).1 ∧
    defaultMargin ≤ (calc_position 100 80 300 50 "top-right" defaultMargin).2 :=
  corner_anchor_min_margin 100 80 300 50 "top-right" (by decide) (by decide)
    (by decide) (by decide) (Or.inr (Or.inl rfl))

/-- Claim C10: `calc_position` is total over arbitrary position strings —
any string other than the four explicitly tested ones falls through to the
bottom-right anchor instead of raising. -/
theorem calc_position_fallback_bottom_right (w h tw th m : Int) (pos : String)
    (h1 : pos ≠ "top-left") (h2 : pos ≠ "top-right") (h3 : pos ≠ "center")
    (h4 : pos ≠ "bottom-left") :
    calc_position w h tw th pos m =
      (max (w - tw - m) m, max (h - th - m) m) := by
  unfold calc_position
  rw [if_neg h1, if_neg h2, if_neg h3, if_neg h4]

/-- Witness for C10 at the misspelled position `"bottom-rihgt"`. -/
theorem calc_position_fallback_bottom_right_witness :
    calc_position 100 80 20 10 "bottom-rihgt" 10 = (70, 60) := by
  rw [calc_position_fallback_bottom_right 100 80 20 10 10 "bottom-rihgt"
      (by decide) (by decide) (by decide) (by decide)]
  decide

theorem formatDate_eq_claimDate (s : PyStr) : formatDate s = claimDateOfRaw s := by
  simp only [formatDate, claimDateOfRaw]
  cases hf : pySplit ':' ((pySplit ' ' s).headD []) with
  | nil => rfl
  | cons a t =>
    cases t with
    | nil => rfl
    | cons b t2 =>
      cases t2 with
      | nil => rfl
      | cons c t3 =>
        simp only [List.take_succ_cons, List.take_zero, List.getD_cons_zero,
          List.getD_cons_succ]
        rw [if_pos (by simp only [List.length_cons]; omega)]

/-- Claim C1, amended: `exif_date_text` yields no date on a metadata read
failure or an empty mapping; it prefers the DateTimeOriginal tag and falls
back to DateTime when the former is absent or empty; the chosen raw value's
segment before the first space must split on `:` into at least three fields
whose first three parse as integers — extra `:` fields are ignored, not
treated as malformed — and is rendered as `Y-M-D` zero-padded to 4/2/2;
fewer than three fields or an unparsable component yields no date, and the
function never raises (it is total). -/
theorem exif_date_text_spec :
    (∀ e : PyErr, exif_date_text (.error e) = none) ∧
    exif_date_text (.ok []) = none ∧
    (∀ m : ExifMap,
      (exifGet m EXIF_TAG_DATETIME_ORIGINAL = none ∨
        exifGet m EXIF_TAG_DATETIME_ORIGINAL = some []) →
      (exifGet m EXIF_TAG_DATETIME = none ∨
        exifGet m EXIF_TAG_DATETIME = some []) →
      exif_date_text (.ok m) = none) ∧
    (∀ (m : ExifMap) (s : PyStr), m ≠ [] →
      exifGet m EXIF_TAG_DATETIME_ORIGINAL = some s → s ≠ [] →
      exif_date_text (.ok m) = claimDateOfRaw s) ∧
    (∀ (m : ExifMap) (s : PyStr), m ≠ [] →
      (exifGet m EXIF_TAG_DATETIME_ORIGINAL = none ∨
        exifGet m EXIF_TAG_DATETIME_ORIGINAL = some []) →
      exifGet m EXIF_TAG_DATETIME = some s → s ≠ [] →
      exif_date_text (.ok m) = claimDateOfRaw s) ∧
    claimDateOfRaw (pystr "2023:07:04 10:20:30") = some (pystr "2023-07-04") ∧
    claimDateOfRaw (pystr "2023/07/04") = none := by
  refine ⟨fun e => rfl, rfl, ?_, ?_, ?_, by decide, by decide⟩
  · intro m h1 h2
    cases m with
    | nil => rfl
    | cons p t =>
      simp only [exif_date_text, List.isEmpty_cons, Bool.false_eq_true, if_false]
      rcases h1 with h1 | h1 <;> rcases h2 with h2 | h2 <;> rw [h1, h2] <;>
        simp [pyOr]
  · intro m s hm hget hs
    have hse : s.isEmpty = false := by
      cases s with
      | nil => exact absurd rfl hs
      | cons a u => rfl
    cases m with
    | nil => exact absurd rfl hm
    | cons p t =>
      simp only [exif_date_text, List.isEmpty_cons, Bool.false_eq_true, if_false]
      rw [hget]
      simp only [pyOr, hse, Bool.false_eq_true, if_false]
      exact formatDate_eq_claimDate s
  · intro m s hm h1 hget hs
    have hse : s.isEmpty = false := by
      cases s with
      | nil => exact absurd rfl hs
      | cons a u => rfl
    cases m with
    | nil => exact absurd rfl hm
    | cons p t =>
      simp only [exif_date_text, List.isEmpty_cons, Bool.false_eq_true, if_false]
      rcases h1 with h1 | h1 <;> rw [h1, hget] <;>
        simp only [pyOr, List.isEmpty_nil, if_true, hse, Bool.false_eq_true,
          if_false] <;>
        exact formatDate_eq_claimDate s

/-- Witness for C1 at the spec's example: `"2023:07:04 10:20:30"` under the
DateTimeOriginal tag yields `"2023-07-04"`. -/
theorem exif_date_text_spec_witness :
    exif_date_text
        (.ok [(EXIF_TAG_DATETIME_ORIGINAL, pystr "2023:07:04 10:20:30")]) =
      some (pystr "2023-07-04") := by
  rw [exif_date_text_spec.2.2.2.1
      [(EXIF_TAG_DATETIME_ORIGINAL, pystr "2023:07:04 10:20:30")]
      (pystr "2023:07:04 10:20:30") (by decide) (by decide) (by decide)]
  decide

/-- Counterexample for C1 as stated: the raw value
`"2023:07:04:05 10:20:30"` has four `:`-separated date fields — a wrong
field count, which the claim says must yield no date — yet the code takes
the first three fields and returns `"2023-07-04"`. -/
theorem exif_date_text_extra_field_accepted :
    exif_date_text
        (.ok [(EXIF_TAG_DATETIME_ORIGINAL, pystr "2023:07:04:05 10:20:30")]) =
      some (pystr "2023-07-04") := by
  decide

theorem processBatch_getD (out_root source_root : PyPath) :
    ∀ (files : List (PyPath × FileOps)) (i : Nat), i < files.length →
    (processBatch out_root source_root files).getD i default =
      process_file (files.getD i default).1 out_root source_root
        (files.getD i default).2 := by
  intro files
  induction files with
  | nil => intro i hi; simp at hi
  | cons f t ih =>
    intro i hi
    cases i with
    | zero => rfl
    | succ j =>
      show (process_file f.1 out_root source_root f.2 ::
        processBatch out_root source_root t).getD (j + 1) default = _
      rw [List.getD_cons_succ, List.getD_cons_succ]
      exact ih j (by simp [List.length_cons] at hi; omega)

/-- Claim C6: every exception raised inside the body of `process_file` is
caught there and turned into a logged failure record carrying the file path
and the error, and the batch driver processes each file independently of the
others — one file's failure never prevents the rest from being processed. -/
theorem process_file_isolates_failures (out_root source_root : PyPath)
    (files : List (PyPath × FileOps)) (i : Nat) (hi : i < files.length) :
    (processBatch out_root source_root files).length = files.length ∧
    (processBatch out_root source_root files).getD i default =
      process_file (files.getD i default).1 out_root source_root
        (files.getD i default).2 ∧
    ∀ (f : PyPath × FileOps) (e : PyErr),
      processFileBody f.1 out_root source_root f.2 = .error e →
      process_file f.1 out_root source_root f.2 = .failed f.1 e := by
  refine ⟨by simp [processBatch], processBatch_getD out_root source_root files i hi, ?_⟩
  intro f e he
  unfold process_file
  rw [he]

/-- A file whose decoding raises. -/
def crashOps : FileOps := ⟨.error "decode failed", none, none, none⟩

/-- A JPEG file that decodes cleanly, with a capture date and an EXIF blob. -/
def okOps : FileOps :=
  ⟨.ok ⟨.ok [(EXIF_TAG_DATETIME_ORIGINAL, pystr "2023:07:04 10:20:30")],
       some [1, 2, 3], some "JPEG"⟩, none, none, none⟩

/-- A two-file batch whose first file fails to decode. -/
def sampleBatch : List (PyPath × FileOps) :=
  [(["bad.jpg"], crashOps), (["good.jpg"], okOps)]

/-- Witness for C6: in a two-file batch whose first file fails to decode,
the second file is still processed, and the failure is returned as a logged
record rather than an exception. -/
theorem process_file_isolates_failures_witness :
    (processBatch [] [] sampleBatch).length = sampleBatch.length ∧
    (processBatch [] [] sampleBatch).getD 1 default =
      process_file ["good.jpg"] [] [] okOps ∧
    process_file ["bad.jpg"] [] [] crashOps = .failed ["bad.jpg"] "decode failed" := by
  have h := process_file_isolates_failures [] [] sampleBatch 1 (by decide)
  exact ⟨h.1, h.2.1, h.2.2 (["bad.jpg"], crashOps) "decode failed" rfl⟩

/-- Claim C8: `draw_watermark` never mutates the input image object (every
pre-existing heap object is left untouched), returns a fresh image value,
and the returned image's color mode equals the input's original mode. -/
theorem draw_watermark_no_mutation (h : Heap) (imgId : Nat) (text : String)
    (tw th : Int) (c : Rgba) (pos : String) (hlt : imgId < h.length) :
    (∀ j, j < h.length →
      getObj (draw_watermark h imgId text tw th c pos).1 j = getObj h j) ∧
    (draw_watermark h imgId text tw th c pos).2 ≠ imgId ∧
    (getObj (draw_watermark h imgId text tw th c pos).1
      (draw_watermark h imgId text tw th c pos).2).mode =
      (getObj h imgId).mode := by
  obtain ⟨h1, h2, h3, _⟩ := draw_watermark_behavior h imgId text tw th c pos hlt
  exact ⟨h1, h2, h3⟩

/-- An RGB source image carrying an EXIF orientation tag. -/
def sampleImage : ImageObj := ⟨"RGB", 4, 3, true, .source 0⟩

/-- Witness for C8 on a concrete RGB image. -/
theorem draw_watermark_no_mutation_witness :
    getObj (draw_watermark [sampleImage] 0 "2023-07-04" 5 2
      (255, 255, 255, 255) "center").1 0 = getObj [sampleImage] 0 ∧
    (draw_watermark [sampleImage] 0 "2023-07-04" 5 2
      (255, 255, 255, 255) "center").2 ≠ 0 ∧
    (getObj (draw_watermark [sampleImage] 0 "2023-07-04" 5 2
      (255, 255, 255, 255) "center").1
      (draw_watermark [sampleImage] 0 "2023-07-04" 5 2
        (255, 255, 255, 255) "center").2).mode = "RGB" := by
  have h := draw_watermark_no_mutation [sampleImage] 0 "2023-07-04" 5 2
      (255, 255, 255, 255) "center" (by decide)
  exact ⟨h.1 0 (by decide), h.2.1, h.2.2⟩

/-- Claim C9: for a decoded JPEG or TIFF whose `info` carries a non-empty
raw EXIF blob, a successful `process_file` run attaches exactly that blob —
byte for byte, orientation tag included — to the saved output, even though
the rendered pixels were orientation-normalised by `draw_watermark` (whose
output always derives from the `exif_transpose` working copy whenever the
input carried an orientation tag). -/
theorem process_file_exif_passthrough :
    (∀ (in_file out_root source_root : PyPath) (ops : FileOps)
       (im : DecodedImage) (bs : ByteBlob) (t : PyStr),
      ops.decode = .ok im → ops.renderErr = none → ops.mkdirErr = none →
      ops.saveErr = none →
      exif_date_text im.exifRes = some t → t.isEmpty = false →
      im.infoExif = some bs → bs.isEmpty = false →
      (asciiUpper ((im.format).getD "PNG") = "JPEG" ∨
        asciiUpper ((im.format).getD "PNG") = "TIFF") →
      (process_file in_file out_root source_root ops).isSaved = true ∧
      savedExifOf (process_file in_file out_root source_root ops) = some bs) ∧
    (∀ (h : Heap) (imgId : Nat) (text : String) (tw th : Int) (c : Rgba)
       (pos : String), imgId < h.length →
      (getObj h imgId).hasOrientation = true →
      isNormalizedTrace (getObj (draw_watermark h imgId text tw th c pos).1
        (draw_watermark h imgId text tw th c pos).2).pixels = true) := by
  constructor
  · intro in_file out_root source_root ops im bs t hdec hren hmk hsv hdate ht
      hinfo hbs hfmt
    have hbody : processFileBody in_file out_root source_root ops =
        .ok (.saved
          (withSuffix (out_root ++
            (match relTo? in_file source_root with
             | some r => r
             | none => [pathName in_file])) (pathSuffix (pathName in_file)))
          (asciiUpper ((im.format).getD "PNG"))
          ⟨if asciiUpper ((im.format).getD "PNG") = "JPEG" then some 95 else none,
           if asciiUpper ((im.format).getD "PNG") = "JPEG" then some 2 else none,
           some bs⟩) := by
      unfold processFileBody
      rw [hdec]
      dsimp only
      rw [hdate]
      dsimp only
      rw [ht]
      simp only [Bool.false_eq_true, if_false]
      rw [hren]
      dsimp only
      rw [hmk]
      dsimp only
      rw [hinfo]
      dsimp only
      rw [if_pos (And.intro (by simp [hbs]) hfmt), hsv]
    constructor
    · unfold process_file
      rw [hbody]
      rfl
    · unfold process_file
      rw [hbody]
      rfl
  · intro h imgId text tw th c pos hlt hOrient
    exact (draw_watermark_behavior h imgId text tw th c pos hlt).2.2.2 hOrient

/-- Witness for C9: a JPEG with EXIF blob `[1, 2, 3]` is saved with exactly
that blob attached, and rendering a tagged image normalises orientation. -/
theorem process_file_exif_passthrough_witness :
    (process_file ["a", "b.jpg"] ["o"] ["a"] okOps).isSaved = true ∧
    savedExifOf (process_file ["a", "b.jpg"] ["o"] ["a"] okOps) = some [1, 2, 3] ∧
    isNormalizedTrace (getObj
      (draw_watermark [sampleImage] 0 "x" 5 2 (255, 255, 255, 255) "top-left").1
      (draw_watermark [sampleImage] 0 "x" 5 2
        (255, 255, 255, 255) "top-left").2).pixels = true := by
  have h1 := process_file_exif_passthrough.1 ["a", "b.jpg"] ["o"] ["a"] okOps
      ⟨.ok [(EXIF_TAG_DATETIME_ORIGINAL, pystr "2023:07:04 10:20:30")],
       some [1, 2, 3], some "JPEG"⟩
      [1, 2, 3] (pystr "2023-07-04") rfl rfl rfl rfl (by decide) (by decide)
      rfl (by decide) (Or.inl (by decide))
  have h2 := process_file_exif_passthrough.2 [sampleImage] 0 "x" 5 2
      (255, 255, 255, 255) "top-left" (by decide) rfl
  exact ⟨h1.1, h1.2, h2⟩

end WatermarkCli
